import Mathlib

/-!
Verification of the checkpoint / export-import subsystem of the
`haizhi-rust-rocksdb` binding layer (`src/checkpoint.rs`), against its
natural-language specification.

The binding layer's own logic is embedded directly from the source:
the metadata codec schema (the `RocksdbExportImportFilesMetaData` /
`RocksdbLevelMetaData` structs and their serde-derived JSON mapping),
the `save`/`load` pipelines with their `unwrap()` panic points, and the
`LOG_SIZE_FOR_FLUSH` constant.  Behaviour implemented by the native
RocksDB engine or by helper code that is not part of the given sources
(`to_cpath`, `rocksdb_checkpoint_create`, `rocksdb_column_family_export`,
`create_cf_with_import`) is modelled from the specification; each such
definition says so in its doc comment.

Machine integers are modelled as `Int`/`Nat` with explicit range
predicates (`i32`, `u64`, `u8`); C byte strings as `List Nat` with each
element a byte value; fallible Rust code as `Except`; a Rust panic as
the `PanicOr.panic` outcome.
-/

/-- JSON values, the codomain of serde serialization.  Numbers are
integers: every numeric field of the metadata schema is an integer type
(`i32`, `u64`, `u8`), so fractional numbers never arise from `encode`;
a fractional input would simply fail the integer range checks of
`decode`, which is the behaviour serde gives for integer fields. -/
inductive Json where
  | str : String → Json
  | num : Int → Json
  | jbool : Bool → Json
  | null : Json
  | obj : List (String × Json) → Json
  | arr : List Json → Json

/-- Decode failure, the spec's `DecodeError`: schema mismatch or missing
required field. -/
inductive DecodeError where
  | Malformed : DecodeError
deriving DecidableEq

/-- The binding's `Error` type: a wrapped human-readable message
(`Error::new(String)` in the source). -/
structure Error where
  message : String
deriving DecidableEq

/-- Look a required field up in a JSON object, as serde's derived
`Deserialize` does by field name; a missing field is a `Malformed`
error (no field of the source structs carries `#[serde(default)]`). -/
def jGet (fields : List (String × Json)) (k : String) : Except DecodeError Json :=
  match fields with
  | [] => .error .Malformed
  | (k2, v) :: rest => if k = k2 then .ok v else jGet rest k

/-- serde: a `String` field deserializes from a JSON string only. -/
def asString : Json → Except DecodeError String
  | .str s => .ok s
  | _ => .error .Malformed

/-- Range of the Rust `i32` type: `-2^31 ≤ n < 2^31`. -/
def i32InRange (n : Int) : Bool :=
  decide (-2147483648 ≤ n) && decide (n < 2147483648)

/-- Range of the Rust `u64` type: `n < 2^64`. -/
def u64InRange (n : Nat) : Bool := decide (n < 18446744073709551616)

/-- Range of the Rust `u64` type for a JSON integer: nonnegative and
below `2^64` (phrased through `toNat`, equivalent for every `Int`). -/
def intU64InRange (n : Int) : Bool :=
  decide (0 ≤ n) && decide (n.toNat < 18446744073709551616)

/-- Range of the Rust `u8` type: `n < 2^8`. -/
def u8InRange (n : Nat) : Bool := decide (n < 256)

/-- Range of the Rust `u8` type for a JSON integer: nonnegative and
below `2^8` (phrased through `toNat`, equivalent for every `Int`). -/
def intU8InRange (n : Int) : Bool :=
  decide (0 ≤ n) && decide (n.toNat < 256)

/-- serde: an `i32` field deserializes from an in-range JSON integer. -/
def asI32 : Json → Except DecodeError Int
  | .num n => if i32InRange n then .ok n else .error .Malformed
  | _ => .error .Malformed

/-- serde: a `u64` field deserializes from an in-range JSON integer. -/
def asU64 : Json → Except DecodeError Nat
  | .num n => if intU64InRange n then .ok n.toNat else .error .Malformed
  | _ => .error .Malformed

/-- serde: a `u8` field deserializes from an in-range JSON integer. -/
def asU8 : Json → Except DecodeError Nat
  | .num n => if intU8InRange n then .ok n.toNat else .error .Malformed
  | _ => .error .Malformed

/-- serde: a `Vec` field deserializes from a JSON array only. -/
def asArr : Json → Except DecodeError (List Json)
  | .arr l => .ok l
  | _ => .error .Malformed

/-- `RocksdbLevelMetaData` (source `src/checkpoint.rs` lines 55-81):
per-file statistics of one exported SST file.  Field kinds follow the
Rust declaration: `String` stays `String`, `i32` becomes `Int`,
`u64`/`u8` become `Nat`. -/
structure RocksdbLevelMetaData where
  column_family_name : String
  level : Int
  relative_filename : String
  name : String
  file_number : Nat
  file_type : Int
  directory : String
  db_path : String
  size : Int
  smallest_seqno : Nat
  largest_seqno : Nat
  smallestkey : String
  largestkey : String
  num_reads_sampled : Nat
  being_compacted : Int
  num_entries : Nat
  num_deletions : Nat
  temperature : Nat
  oldest_blob_file_number : Nat
  oldest_ancester_time : Nat
  file_creation_time : Nat
  file_checksum : String
  file_checksum_func_name : String
deriving DecidableEq

/-- `RocksdbExportImportFilesMetaData` (source lines 47-52): the export
bundle, a comparator name plus the file list. -/
structure RocksdbExportImportFilesMetaData where
  db_comparator_name : String
  files : List RocksdbLevelMetaData
deriving DecidableEq

/-- All machine-integer fields of a file record are within their Rust
types' ranges (automatic in Rust, explicit in the `Nat`/`Int` model). -/
def levelInRange (f : RocksdbLevelMetaData) : Bool :=
  i32InRange f.level && u64InRange f.file_number && i32InRange f.file_type &&
  i32InRange f.size && u64InRange f.smallest_seqno && u64InRange f.largest_seqno &&
  u64InRange f.num_reads_sampled && i32InRange f.being_compacted &&
  u64InRange f.num_entries && u64InRange f.num_deletions && u8InRange f.temperature &&
  u64InRange f.oldest_blob_file_number && u64InRange f.oldest_ancester_time &&
  u64InRange f.file_creation_time

/-- A bundle is valid when every file record's integer fields are in
range. -/
def metaInRange (m : RocksdbExportImportFilesMetaData) : Bool :=
  m.files.all levelInRange

/-- serde `Serialize` for `RocksdbLevelMetaData`: a JSON object with
one member per field, in declaration order. -/
def encodeLevelFields (f : RocksdbLevelMetaData) : List (String × Json) :=
  [
    ("column_family_name", .str f.column_family_name),
    ("level", .num f.level),
    ("relative_filename", .str f.relative_filename),
    ("name", .str f.name),
    ("file_number", .num (f.file_number : Int)),
    ("file_type", .num f.file_type),
    ("directory", .str f.directory),
    ("db_path", .str f.db_path),
    ("size", .num f.size),
    ("smallest_seqno", .num (f.smallest_seqno : Int)),
    ("largest_seqno", .num (f.largest_seqno : Int)),
    ("smallestkey", .str f.smallestkey),
    ("largestkey", .str f.largestkey),
    ("num_reads_sampled", .num (f.num_reads_sampled : Int)),
    ("being_compacted", .num f.being_compacted),
    ("num_entries", .num (f.num_entries : Int)),
    ("num_deletions", .num (f.num_deletions : Int)),
    ("temperature", .num (f.temperature : Int)),
    ("oldest_blob_file_number", .num (f.oldest_blob_file_number : Int)),
    ("oldest_ancester_time", .num (f.oldest_ancester_time : Int)),
    ("file_creation_time", .num (f.file_creation_time : Int)),
    ("file_checksum", .str f.file_checksum),
    ("file_checksum_func_name", .str f.file_checksum_func_name)]

def encodeLevelMetaData (f : RocksdbLevelMetaData) : Json :=
  .obj (encodeLevelFields f)

/-- serde `Serialize` for `RocksdbExportImportFilesMetaData`. -/
def encodeMetaFields (m : RocksdbExportImportFilesMetaData) : List (String × Json) :=
  [("db_comparator_name", .str m.db_comparator_name),
   ("files", .arr (m.files.map encodeLevelMetaData))]

def encodeMetaData (m : RocksdbExportImportFilesMetaData) : Json :=
  .obj (encodeMetaFields m)

/-- serde `Deserialize` for `RocksdbLevelMetaData`: requires a JSON
object carrying every field with the right type; anything else is
`Malformed`. -/
def decodeLevelMetaData (j : Json) : Except DecodeError RocksdbLevelMetaData :=
  match j with
  | .obj fields => do
    let column_family_name ← asString (← jGet fields "column_family_name")
    let level ← asI32 (← jGet fields "level")
    let relative_filename ← asString (← jGet fields "relative_filename")
    let name ← asString (← jGet fields "name")
    let file_number ← asU64 (← jGet fields "file_number")
    let file_type ← asI32 (← jGet fields "file_type")
    let directory ← asString (← jGet fields "directory")
    let db_path ← asString (← jGet fields "db_path")
    let size ← asI32 (← jGet fields "size")
    let smallest_seqno ← asU64 (← jGet fields "smallest_seqno")
    let largest_seqno ← asU64 (← jGet fields "largest_seqno")
    let smallestkey ← asString (← jGet fields "smallestkey")
    let largestkey ← asString (← jGet fields "largestkey")
    let num_reads_sampled ← asU64 (← jGet fields "num_reads_sampled")
    let being_compacted ← asI32 (← jGet fields "being_compacted")
    let num_entries ← asU64 (← jGet fields "num_entries")
    let num_deletions ← asU64 (← jGet fields "num_deletions")
    let temperature ← asU8 (← jGet fields "temperature")
    let oldest_blob_file_number ← asU64 (← jGet fields "oldest_blob_file_number")
    let oldest_ancester_time ← asU64 (← jGet fields "oldest_ancester_time")
    let file_creation_time ← asU64 (← jGet fields "file_creation_time")
    let file_checksum ← asString (← jGet fields "file_checksum")
    let file_checksum_func_name ← asString (← jGet fields "file_checksum_func_name")
    pure {
      column_family_name := column_family_name, level := level,
      relative_filename := relative_filename, name := name,
      file_number := file_number, file_type := file_type,
      directory := directory, db_path := db_path, size := size,
      smallest_seqno := smallest_seqno, largest_seqno := largest_seqno,
      smallestkey := smallestkey, largestkey := largestkey,
      num_reads_sampled := num_reads_sampled, being_compacted := being_compacted,
      num_entries := num_entries, num_deletions := num_deletions,
      temperature := temperature, oldest_blob_file_number := oldest_blob_file_number,
      oldest_ancester_time := oldest_ancester_time,
      file_creation_time := file_creation_time, file_checksum := file_checksum,
      file_checksum_func_name := file_checksum_func_name }
  | _ => .error .Malformed

/-- Deserialize the `files` vector element by element. -/
def decodeFiles : List Json → Except DecodeError (List RocksdbLevelMetaData)
  | [] => .ok []
  | j :: rest => do
    let f ← decodeLevelMetaData j
    let fs ← decodeFiles rest
    pure (f :: fs)

/-- serde `Deserialize` for `RocksdbExportImportFilesMetaData`. -/
def decodeMetaData (j : Json) : Except DecodeError RocksdbExportImportFilesMetaData :=
  match j with
  | .obj fields => do
    let db_comparator_name ← asString (← jGet fields "db_comparator_name")
    let files ← asArr (← jGet fields "files")
    let files ← decodeFiles files
    pure { db_comparator_name := db_comparator_name, files := files }
  | _ => .error .Malformed

/-- Outcome of Rust code that may panic: `panic` models a Rust panic
(an `unwrap()` on `Err`/`None`), `ok` a normal return. -/
inductive PanicOr (α : Type) where
  | panic : PanicOr α
  | ok : α → PanicOr α
deriving DecidableEq

/-- `Rust CString::new` rejects strings with an interior NUL byte; this
is the condition under which `CString::new(s).unwrap()` panics. -/
def hasNul (s : String) : Bool := s.data.any (fun c => c == Char.ofNat 0)

/-- A byte is a UTF-8 continuation byte (`0x80 ..= 0xBF`). -/
def isContByte (b : Nat) : Bool := 0x80 ≤ b && b < 0xC0

/-- Standard UTF-8 validity of a byte sequence (bytes as `Nat`), the
check performed by Rust's `str::from_utf8` and hence by
`CStr::to_str`: rejects stray continuation bytes, overlong encodings,
surrogates and code points above U+10FFFF. -/
def utf8Valid : List Nat → Bool
  | [] => true
  | b :: rest =>
    if b < 0x80 then utf8Valid rest
    else if b < 0xC2 then false
    else if b < 0xE0 then
      match rest with
      | c1 :: r => isContByte c1 && utf8Valid r
      | [] => false
    else if b < 0xF0 then
      match rest with
      | c1 :: c2 :: r =>
        (if b == 0xE0 then decide (0xA0 ≤ c1) && decide (c1 < 0xC0)
         else if b == 0xED then decide (0x80 ≤ c1) && decide (c1 < 0xA0)
         else isContByte c1) && isContByte c2 && utf8Valid r
      | _ => false
    else if b < 0xF5 then
      match rest with
      | c1 :: c2 :: c3 :: r =>
        (if b == 0xF0 then decide (0x90 ≤ c1) && decide (c1 < 0xC0)
         else if b == 0xF4 then decide (0x80 ≤ c1) && decide (c1 < 0x90)
         else isContByte c1) && isContByte c2 && isContByte c3 && utf8Valid r
      | _ => false
    else false

/-- The native side of one `LiveFileMetaData`: what
`rocksdb_marshal_export_import_files_metadata` serializes.  String
fields are C byte strings (`List Nat`, one `Nat` per byte) because the
key-range fields hold raw key bytes that need not be UTF-8. -/
structure NativeLevelMetaData where
  column_family_name : List Nat
  level : Int
  relative_filename : List Nat
  name : List Nat
  file_number : Nat
  file_type : Int
  directory : List Nat
  db_path : List Nat
  size : Int
  smallest_seqno : Nat
  largest_seqno : Nat
  smallestkey : List Nat
  largestkey : List Nat
  num_reads_sampled : Nat
  being_compacted : Int
  num_entries : Nat
  num_deletions : Nat
  temperature : Nat
  oldest_blob_file_number : Nat
  oldest_ancester_time : Nat
  file_creation_time : Nat
  file_checksum : List Nat
  file_checksum_func_name : List Nat
deriving DecidableEq

/-- The native export metadata behind `ExportImportFilesMetaData.inner`. -/
structure NativeExportImportFilesMetaData where
  db_comparator_name : List Nat
  files : List NativeLevelMetaData
deriving DecidableEq

/-- Every string field of one native file record is valid UTF-8. -/
def nativeLevelUtf8Valid (f : NativeLevelMetaData) : Bool :=
  utf8Valid f.column_family_name && utf8Valid f.relative_filename &&
  utf8Valid f.name && utf8Valid f.directory && utf8Valid f.db_path &&
  utf8Valid f.smallestkey && utf8Valid f.largestkey &&
  utf8Valid f.file_checksum && utf8Valid f.file_checksum_func_name

/-- Every string field of the native bundle is valid UTF-8.  Modelled
from the spec: the native marshal
(`rocksdb_marshal_export_import_files_metadata`, external C code)
embeds each string field's raw bytes into its textual output, so the
output buffer is valid UTF-8 exactly when every string field is (the
JSON framing around the fields is ASCII). -/
def nativeMetaUtf8Valid (m : NativeExportImportFilesMetaData) : Bool :=
  utf8Valid m.db_comparator_name && m.files.all nativeLevelUtf8Valid

/-- `ExportImportFilesMetaData::save` (source lines 84-99), with the
file system abstracted to two flags.  Stages, in source order:
1. `File::create` — on failure, `Error("Create metadata file failed")`;
2. `CStr::to_str().unwrap()` on the native marshal output — PANICS when
   any string field is not valid UTF-8 (see `nativeMetaUtf8Valid`);
3. `serde_json::from_str(str).unwrap()` — the marshal output follows
   the schema, so on UTF-8-valid input this parse yields the metadata
   back (round-trip of the external serializer on its own output) and
   the `unwrap` cannot panic;
4. `file.write_all` — on failure, `Error("Write metadate file failed")`
   (sic, the source misspells "metadata" here). -/
def ExportImportFilesMetaData.save (canCreate canWrite : Bool)
    (m : NativeExportImportFilesMetaData) : PanicOr (Except Error Unit) :=
  if canCreate = false then .ok (.error ⟨"Create metadata file failed"⟩)
  else if nativeMetaUtf8Valid m = false then .panic
  else if canWrite = false then .ok (.error ⟨"Write metadate file failed"⟩)
  else .ok (.ok ())

/-- One decoded file record has an interior NUL in some string field
passed to `CString::new(..).unwrap()` in `load` (source lines 113-121). -/
def levelHasNul (f : RocksdbLevelMetaData) : Bool :=
  hasNul f.column_family_name || hasNul f.relative_filename || hasNul f.name ||
  hasNul f.directory || hasNul f.db_path || hasNul f.smallestkey ||
  hasNul f.largestkey || hasNul f.file_checksum || hasNul f.file_checksum_func_name

/-- Some string field fed to `CString::new` anywhere in the decoded
bundle (the per-file fields, lines 113-121, or `db_comparator_name`,
line 149) has an interior NUL byte. -/
def metaHasNul (m : RocksdbExportImportFilesMetaData) : Bool :=
  m.files.any levelHasNul || hasNul m.db_comparator_name

/-- `ExportImportFilesMetaData::load` (source lines 101-158), with the
file system abstracted to two flags and the file's content given as the
parsed JSON value.  Stages, in source order:
1. `File::open` — on failure, `Error("Open metadate file failed")`;
2. `read_to_string` — on failure, `Error("Read metadate file failed")`;
3. `serde_json::from_str(&result).unwrap()` — PANICS when the content
   does not match the metadata schema (missing field / wrong type),
   instead of returning a decode error;
4. `CString::new(field).unwrap()` for each string field — PANICS when a
   field contains an interior NUL byte;
5. the native re-construction (`rocksdb_new_live_file_metadata`,
   `rocksdb_new_export_import_files_metadata`) — external engine code;
   its result is modelled by the decoded bundle itself. -/
def ExportImportFilesMetaData.load (canOpen canRead : Bool) (content : Json) :
    PanicOr (Except Error RocksdbExportImportFilesMetaData) :=
  if canOpen = false then .ok (.error ⟨"Open metadate file failed"⟩)
  else if canRead = false then .ok (.error ⟨"Read metadate file failed"⟩)
  else
    match decodeMetaData content with
    | .error _ => .panic
    | .ok metadata =>
      if metaHasNul metadata then .panic
      else .ok (.ok metadata)

/-- Association-list lookup by string key (first match wins). -/
def assocFind {α : Type} : List (String × α) → String → Option α
  | [], _ => none
  | (k2, v) :: rest, k => if k = k2 then some v else assocFind rest k

/-- Modelled from the spec: the state of one open store's key/value
content (the StoreHandle facade of §2/§6 — the full LSM engine is an
external collaborator).  Writes are recorded most-recent-first; a read
returns the most recent write of the key. -/
structure StoreState where
  writes : List (String × String)
deriving DecidableEq

/-- Modelled from the spec: `put` records a write. -/
def StoreState.put (st : StoreState) (k v : String) : StoreState :=
  ⟨(k, v) :: st.writes⟩

/-- Modelled from the spec: `get` reads the most recent value of `k`. -/
def StoreState.get (st : StoreState) (k : String) : Option String :=
  assocFind st.writes k

/-- Apply a batch of writes in order. -/
def applyWrites (st : StoreState) (ws : List (String × String)) : StoreState :=
  ws.foldl (fun s kv => s.put kv.1 kv.2) st

/-- Modelled from the spec: durable storage holding materialized
checkpoints, one independently-openable store copy per target
directory. -/
structure CheckpointFS where
  dirs : List (String × StoreState)
deriving DecidableEq

/-- Find the snapshot materialized at a target directory. -/
def CheckpointFS.find (fs : CheckpointFS) (p : String) : Option StoreState :=
  assocFind fs.dirs p

/-- The spec's `PathError` (§7 taxonomy): filesystem path invalid,
unrepresentable, or pre-existing where a fresh directory is required. -/
inductive CheckpointError where
  | pathError : CheckpointError
deriving DecidableEq

/-- Undocumented parameter for `ffi::rocksdb_checkpoint_create`
(source line 34): `const LOG_SIZE_FOR_FLUSH: u64 = 0_u64`. -/
def LOG_SIZE_FOR_FLUSH : Nat := 0

/-- Modelled from the spec: how much of the in-memory write buffer the
engine flushes during checkpoint creation — bounded by the configurable
flush-size threshold, "default zero meaning flush nothing extra — rely
on existing WAL" (§4.1). -/
def flushedSize (threshold bufferSize : Nat) : Nat :=
  min threshold bufferSize

/-- Outcome of one checkpoint materialization: the resulting durable
storage, how much of the in-memory write buffer was flushed, and the
call's result value. -/
structure CheckpointOutcome where
  fs : CheckpointFS
  flushed : Nat
  result : Except CheckpointError Unit

/-- Modelled from the spec: the native engine call
`ffi::rocksdb_checkpoint_create` (external C code).  Takes the
configurable flush-size threshold as a parameter; fails with a path
error when the target directory already exists; otherwise flushes
`flushedSize` of the write buffer and materializes a snapshot of the
store state as of this invocation into the target directory.  The
returned file system is unchanged on failure. -/
def rocksdbCheckpointCreate (st : StoreState) (fs : CheckpointFS) (path : String)
    (logSizeForFlush : Nat) : CheckpointOutcome :=
  if (fs.find path).isSome then ⟨fs, 0, .error .pathError⟩
  else ⟨⟨(path, st) :: fs.dirs⟩, flushedSize logSizeForFlush st.writes.length, .ok ()⟩

/-- `Checkpoint::create_checkpoint` (source lines 184-194): converts
the path (`to_cpath`, helper code outside the given sources, modelled
from the spec: fails when the path cannot be represented in the
platform's native path encoding — an interior NUL byte), then invokes
the engine, always passing `LOG_SIZE_FOR_FLUSH` as the threshold. -/
def Checkpoint.create_checkpoint (st : StoreState) (fs : CheckpointFS)
    (path : String) : CheckpointOutcome :=
  if hasNul path then ⟨fs, 0, .error .pathError⟩
  else rocksdbCheckpointCreate st fs path LOG_SIZE_FOR_FLUSH

/-- Modelled from the spec: the content of one column family, including
tombstones (`none`) not yet physically removed. -/
structure ColumnFamilyContent where
  entries : List (String × Option String)
deriving DecidableEq

/-- Modelled from the spec: a store with named column families and a
configured comparator. -/
structure MultiCFStore where
  comparator : String
  cfs : List (String × ColumnFamilyContent)
deriving DecidableEq

/-- Column-family lookup by name (`cf_handle` / `has_cf`). -/
def MultiCFStore.getCF (store : MultiCFStore) (name : String) :
    Option ColumnFamilyContent :=
  assocFind store.cfs name

/-- The spec's `ExportBundle` (§3): comparator identity, the exported
files' content (the key/value set of the source column family at export
time, tombstones included), and the referenced file paths. -/
structure ExportBundle where
  comparator_name : String
  content : ColumnFamilyContent
  files : List String
deriving DecidableEq

/-- The spec's `ImportError` taxonomy (§4.4/§7). -/
inductive ImportError where
  | AlreadyExists : ImportError
  | ComparatorMismatch : ImportError
  | MissingFile : ImportError
deriving DecidableEq

/-- `Checkpoint::export_column_family` (source lines 197-222): converts
the export path (fails when it has an interior NUL byte, the source's
explicit `CString::new` check), then invokes the native export
(`ffi::rocksdb_column_family_export`, external C code, modelled from
the spec: enumerates the live files of the column family at call time
and builds the self-contained bundle — content plus the source store's
comparator name — under the export directory). -/
def Checkpoint.export_column_family (store : MultiCFStore)
    (content : ColumnFamilyContent) (export_dir : String) :
    Except Error ExportBundle :=
  if hasNul export_dir then
    .error ⟨"Failed to convert path to CString when creating DB checkpoint"⟩
  else .ok ⟨store.comparator, content, [export_dir]⟩

/-- Modelled from the spec: `create_cf_with_import` (§4.4, code outside
the given sources — only its caller in `tests/test_checkpoint.rs`
appears).  `present` is the set of file paths currently on disk.
Checks the three preconditions in order — no column family of the
requested name, matching comparator, every referenced file present —
and on success registers the bundle's content as a brand-new column
family; on failure the store is returned unchanged (no partial
registration). -/
def DB.create_cf_with_import (store : MultiCFStore) (name : String)
    (bundle : ExportBundle) (present : List String) :
    MultiCFStore × Option ImportError :=
  if (store.getCF name).isSome then (store, some .AlreadyExists)
  else if bundle.comparator_name ≠ store.comparator then
    (store, some .ComparatorMismatch)
  else if bundle.files.any (fun f => !(present.contains f)) then
    (store, some .MissingFile)
  else ({ store with cfs := (name, bundle.content) :: store.cfs }, none)

/-- A representative exported file record with non-empty fields. -/
def sampleLevelMetaData : RocksdbLevelMetaData where
  column_family_name := "cf1"
  level := 0
  relative_filename := "000010.sst"
  name := "/000010.sst"
  file_number := 10
  file_type := 2
  directory := "/tmp/export"
  db_path := "/tmp/db1"
  size := 1024
  smallest_seqno := 5
  largest_seqno := 9
  smallestkey := "1"
  largestkey := "1"
  num_reads_sampled := 0
  being_compacted := 0
  num_entries := 1
  num_deletions := 0
  temperature := 0
  oldest_blob_file_number := 0
  oldest_ancester_time := 1700000000
  file_creation_time := 1700000000
  file_checksum := ""
  file_checksum_func_name := "Unknown"

/-- An exported file record all of whose fields are zero or the empty
string. -/
def zeroLevelMetaData : RocksdbLevelMetaData where
  column_family_name := ""
  level := 0
  relative_filename := ""
  name := ""
  file_number := 0
  file_type := 0
  directory := ""
  db_path := ""
  size := 0
  smallest_seqno := 0
  largest_seqno := 0
  smallestkey := ""
  largestkey := ""
  num_reads_sampled := 0
  being_compacted := 0
  num_entries := 0
  num_deletions := 0
  temperature := 0
  oldest_blob_file_number := 0
  oldest_ancester_time := 0
  file_creation_time := 0
  file_checksum := ""
  file_checksum_func_name := ""

/-- A representative bundle mixing non-empty and zero/empty-string
fields. -/
def sampleBundle : RocksdbExportImportFilesMetaData where
  db_comparator_name := "leveldb.BytewiseComparator"
  files := [sampleLevelMetaData, zeroLevelMetaData]

theorem intU64InRange_ofNat (n : Nat) (h : u64InRange n = true) :
    intU64InRange (n : Int) = true := by
  simp only [u64InRange, decide_eq_true_eq] at h
  simp only [intU64InRange, Bool.and_eq_true, decide_eq_true_eq]
  omega

theorem intU8InRange_ofNat (n : Nat) (h : u8InRange n = true) :
    intU8InRange (n : Int) = true := by
  simp only [u8InRange, decide_eq_true_eq] at h
  simp only [intU8InRange, Bool.and_eq_true, decide_eq_true_eq]
  omega

theorem asU64_ofNat (n : Nat) (h : u64InRange n = true) :
    asU64 (Json.num (n : Int)) = .ok n := by
  simp [asU64, intU64InRange_ofNat n h]

theorem asU8_ofNat (n : Nat) (h : u8InRange n = true) :
    asU8 (Json.num (n : Int)) = .ok n := by
  simp [asU8, intU8InRange_ofNat n h]

theorem asI32_num (n : Int) (h : i32InRange n = true) :
    asI32 (Json.num n) = .ok n := by
  simp [asI32, h]

/-- A native file record whose byte-string fields are plain ASCII. -/
def sampleNativeLevel : NativeLevelMetaData where
  column_family_name := [99, 102, 49]
  level := 0
  relative_filename := [48, 46, 115, 115, 116]
  name := [47, 48, 46, 115, 115, 116]
  file_number := 10
  file_type := 2
  directory := [47, 116, 109, 112]
  db_path := [47, 116, 109, 112]
  size := 1024
  smallest_seqno := 5
  largest_seqno := 9
  smallestkey := [49]
  largestkey := [49]
  num_reads_sampled := 0
  being_compacted := 0
  num_entries := 1
  num_deletions := 0
  temperature := 0
  oldest_blob_file_number := 0
  oldest_ancester_time := 0
  file_creation_time := 0
  file_checksum := []
  file_checksum_func_name := [85, 110, 107, 110, 111, 119, 110]

/-- A native bundle all of whose string fields are valid UTF-8. -/
def sampleNativeMetaData : NativeExportImportFilesMetaData where
  db_comparator_name := [99, 109, 112]
  files := [sampleNativeLevel]

/-- The same native record with a non-UTF-8 `smallestkey` (the raw key
byte `0xFF`, a byte that cannot appear anywhere in valid UTF-8). -/
def badKeyNativeLevel : NativeLevelMetaData :=
  { sampleNativeLevel with smallestkey := [255] }

/-- A native bundle with a non-UTF-8 string field. -/
def badKeyNative : NativeExportImportFilesMetaData where
  db_comparator_name := [99, 109, 112]
  files := [badKeyNativeLevel]

/-- A decodable file record whose `smallestkey` holds an interior NUL
byte. -/
def nulKeyLevelMetaData : RocksdbLevelMetaData :=
  { zeroLevelMetaData with smallestkey := "\x00" }

/-- A bundle whose stored form decodes fine but carries an interior NUL
in a string field. -/
def nulKeyBundle : RocksdbExportImportFilesMetaData where
  db_comparator_name := "leveldb.BytewiseComparator"
  files := [nulKeyLevelMetaData]

/-- The stored (parsed) metadata file content for `nulKeyBundle`. -/
def nulKeyJson : Json := encodeMetaData nulKeyBundle

/-- A store holding four keys (the scenario of the checkpoint tests). -/
def sampleStoreState : StoreState :=
  ⟨[("k4", "v4"), ("k3", "v3"), ("k2", "v2"), ("k1", "v1")]⟩

/-- Durable storage with no checkpoints yet. -/
def emptyCheckpointFS : CheckpointFS := ⟨[]⟩

/-- Writes interleaved between two checkpoint calls. -/
def sampleWrites : List (String × String) :=
  [("k1", "modified"), ("k2", "changed"), ("k5", "v5"), ("k6", "v6")]

/-- Durable storage on which the directory `cp1` is already taken. -/
def occupiedCheckpointFS : CheckpointFS := ⟨[("cp1", sampleStoreState)]⟩

/-- Content of a source column family, including one tombstone. -/
def sampleCFContent : ColumnFamilyContent := ⟨[("1", some "1"), ("9", none)]⟩

/-- Content of a sibling column family. -/
def sampleCF2Content : ColumnFamilyContent := ⟨[("2", some "2")]⟩

/-- A source store with two column families. -/
def sampleSrcStore : MultiCFStore :=
  ⟨"leveldb.BytewiseComparator", [("cf1", sampleCFContent), ("cf2", sampleCF2Content)]⟩

/-- A fresh destination store with a matching comparator. -/
def sampleDstStore : MultiCFStore := ⟨"leveldb.BytewiseComparator", []⟩

/-- A destination store configured with a different comparator. -/
def mismatchDstStore : MultiCFStore := ⟨"custom.Comparator", []⟩

/-- A bundle whose referenced file is on disk at `/tmp/export`. -/
def sampleImportBundle : ExportBundle :=
  ⟨"leveldb.BytewiseComparator", sampleCFContent, ["/tmp/export"]⟩

/-- A bundle referencing a file that has since been deleted. -/
def missingFileBundle : ExportBundle :=
  ⟨"leveldb.BytewiseComparator", sampleCFContent, ["/tmp/gone.sst"]⟩

theorem except_bind_ok {ε α β : Type} (a : α) (g : α → Except ε β) :
    (Except.ok (ε := ε) a >>= g) = g a := rfl

theorem except_pure {ε α : Type} (a : α) :
    (pure a : Except ε α) = Except.ok a := rfl

theorem jGet_encode_column_family_name (f : RocksdbLevelMetaData) :
    jGet (encodeLevelFields f) "column_family_name" = .ok (Json.str f.column_family_name) := rfl

theorem jGet_encode_level (f : RocksdbLevelMetaData) :
    jGet (encodeLevelFields f) "level" = .ok (Json.num f.level) := rfl

theorem jGet_encode_relative_filename (f : RocksdbLevelMetaData) :
    jGet (encodeLevelFields f) "relative_filename" = .ok (Json.str f.relative_filename) := rfl

theorem jGet_encode_name (f : RocksdbLevelMetaData) :
    jGet (encodeLevelFields f) "name" = .ok (Json.str f.name) := rfl

theorem jGet_encode_file_number (f : RocksdbLevelMetaData) :
    jGet (encodeLevelFields f) "file_number" = .ok (Json.num (f.file_number : Int)) := rfl

theorem jGet_encode_file_type (f : RocksdbLevelMetaData) :
    jGet (encodeLevelFields f) "file_type" = .ok (Json.num f.file_type) := rfl

theorem jGet_encode_directory (f : RocksdbLevelMetaData) :
    jGet (encodeLevelFields f) "directory" = .ok (Json.str f.directory) := rfl

theorem jGet_encode_db_path (f : RocksdbLevelMetaData) :
    jGet (encodeLevelFields f) "db_path" = .ok (Json.str f.db_path) := rfl

theorem jGet_encode_size (f : RocksdbLevelMetaData) :
    jGet (encodeLevelFields f) "size" = .ok (Json.num f.size) := rfl

theorem jGet_encode_smallest_seqno (f : RocksdbLevelMetaData) :
    jGet (encodeLevelFields f) "smallest_seqno" = .ok (Json.num (f.smallest_seqno : Int)) := rfl

theorem jGet_encode_largest_seqno (f : RocksdbLevelMetaData) :
    jGet (encodeLevelFields f) "largest_seqno" = .ok (Json.num (f.largest_seqno : Int)) := rfl

theorem jGet_encode_smallestkey (f : RocksdbLevelMetaData) :
    jGet (encodeLevelFields f) "smallestkey" = .ok (Json.str f.smallestkey) := rfl

theorem jGet_encode_largestkey (f : RocksdbLevelMetaData) :
    jGet (encodeLevelFields f) "largestkey" = .ok (Json.str f.largestkey) := rfl

theorem jGet_encode_num_reads_sampled (f : RocksdbLevelMetaData) :
    jGet (encodeLevelFields f) "num_reads_sampled" = .ok (Json.num (f.num_reads_sampled : Int)) := rfl

theorem jGet_encode_being_compacted (f : RocksdbLevelMetaData) :
    jGet (encodeLevelFields f) "being_compacted" = .ok (Json.num f.being_compacted) := rfl

theorem jGet_encode_num_entries (f : RocksdbLevelMetaData) :
    jGet (encodeLevelFields f) "num_entries" = .ok (Json.num (f.num_entries : Int)) := rfl

theorem jGet_encode_num_deletions (f : RocksdbLevelMetaData) :
    jGet (encodeLevelFields f) "num_deletions" = .ok (Json.num (f.num_deletions : Int)) := rfl

theorem jGet_encode_temperature (f : RocksdbLevelMetaData) :
    jGet (encodeLevelFields f) "temperature" = .ok (Json.num (f.temperature : Int)) := rfl

theorem jGet_encode_oldest_blob_file_number (f : RocksdbLevelMetaData) :
    jGet (encodeLevelFields f) "oldest_blob_file_number" = .ok (Json.num (f.oldest_blob_file_number : Int)) := rfl

theorem jGet_encode_oldest_ancester_time (f : RocksdbLevelMetaData) :
    jGet (encodeLevelFields f) "oldest_ancester_time" = .ok (Json.num (f.oldest_ancester_time : Int)) := rfl

theorem jGet_encode_file_creation_time (f : RocksdbLevelMetaData) :
    jGet (encodeLevelFields f) "file_creation_time" = .ok (Json.num (f.file_creation_time : Int)) := rfl

theorem jGet_encode_file_checksum (f : RocksdbLevelMetaData) :
    jGet (encodeLevelFields f) "file_checksum" = .ok (Json.str f.file_checksum) := rfl

theorem jGet_encode_file_checksum_func_name (f : RocksdbLevelMetaData) :
    jGet (encodeLevelFields f) "file_checksum_func_name" = .ok (Json.str f.file_checksum_func_name) := rfl

theorem jGet_encodeMeta_comparator (m : RocksdbExportImportFilesMetaData) :
    jGet (encodeMetaFields m) "db_comparator_name" = .ok (Json.str m.db_comparator_name) := rfl

theorem jGet_encodeMeta_files (m : RocksdbExportImportFilesMetaData) :
    jGet (encodeMetaFields m) "files" = .ok (Json.arr (m.files.map encodeLevelMetaData)) := rfl

set_option maxHeartbeats 1000000 in
theorem decodeLevelMetaData_encode (f : RocksdbLevelMetaData)
    (h : levelInRange f = true) :
    decodeLevelMetaData (encodeLevelMetaData f) = .ok f := by
  simp only [levelInRange, Bool.and_eq_true, and_assoc] at h
  obtain ⟨h1, h2, h3, h4, h5, h6, h7, h8, h9, h10, h11, h12, h13, h14⟩ := h
  simp only [decodeLevelMetaData, encodeLevelMetaData,
    jGet_encode_column_family_name, jGet_encode_level, jGet_encode_relative_filename,
    jGet_encode_name, jGet_encode_file_number, jGet_encode_file_type,
    jGet_encode_directory, jGet_encode_db_path, jGet_encode_size,
    jGet_encode_smallest_seqno, jGet_encode_largest_seqno, jGet_encode_smallestkey,
    jGet_encode_largestkey, jGet_encode_num_reads_sampled, jGet_encode_being_compacted,
    jGet_encode_num_entries, jGet_encode_num_deletions, jGet_encode_temperature,
    jGet_encode_oldest_blob_file_number, jGet_encode_oldest_ancester_time,
    jGet_encode_file_creation_time, jGet_encode_file_checksum,
    jGet_encode_file_checksum_func_name,
    except_bind_ok, except_pure, asString,
    asI32_num f.level h1, asU64_ofNat f.file_number h2, asI32_num f.file_type h3,
    asI32_num f.size h4, asU64_ofNat f.smallest_seqno h5,
    asU64_ofNat f.largest_seqno h6, asU64_ofNat f.num_reads_sampled h7,
    asI32_num f.being_compacted h8, asU64_ofNat f.num_entries h9,
    asU64_ofNat f.num_deletions h10, asU8_ofNat f.temperature h11,
    asU64_ofNat f.oldest_blob_file_number h12, asU64_ofNat f.oldest_ancester_time h13,
    asU64_ofNat f.file_creation_time h14]

theorem decodeFiles_map (l : List RocksdbLevelMetaData)
    (h : l.all levelInRange = true) :
    decodeFiles (l.map encodeLevelMetaData) = .ok l := by
  induction l with
  | nil => rfl
  | cons f rest ih =>
    simp only [List.all_cons, Bool.and_eq_true] at h
    simp only [List.map_cons, decodeFiles, decodeLevelMetaData_encode f h.1,
      except_bind_ok, ih h.2, except_pure]

/-- C1: for every valid export bundle, decoding the serialization
produced by encoding it yields the bundle back field-for-field —
including zero-valued and empty-string fields; no field is dropped or
replaced by a default during the round trip. -/
theorem decode_encode_roundtrip (m : RocksdbExportImportFilesMetaData)
    (h : metaInRange m = true) :
    decodeMetaData (encodeMetaData m) = .ok m := by
  simp only [decodeMetaData, encodeMetaData, jGet_encodeMeta_comparator,
    jGet_encodeMeta_files, asString, asArr, except_bind_ok, except_pure,
    decodeFiles_map m.files (by simpa [metaInRange] using h)]

/-- C1 witness: the round trip at a representative bundle with
non-empty and zero/empty-string fields. -/
theorem decode_encode_roundtrip_witness :
    metaInRange sampleBundle = true ∧
    decodeMetaData (encodeMetaData sampleBundle) = .ok sampleBundle :=
  ⟨by decide, decode_encode_roundtrip sampleBundle (by decide)⟩

/-- C2: the spec requires `load` to return `DecodeError::Malformed` on
a present-but-malformed metadata file; the code instead panics through
`serde_json::from_str(&result).unwrap()` (source line 108).  At the
malformed input `{}` (valid JSON, every required field missing) the
embedded load pipeline panics, while the decoder itself — had its
result been propagated instead of unwrapped — reports `Malformed`
exactly as the spec demands. -/
theorem load_unwrap_panics_on_malformed :
    ExportImportFilesMetaData.load true true (Json.obj []) = .panic ∧
    decodeMetaData (Json.obj []) = .error .Malformed :=
  ⟨rfl, rfl⟩

/-- C6: `save` reports the creation phase and the write phase through
distinct error values ("Create metadata file failed" from `File::create`,
"Write metadate file failed" from `write_all`), so a caller can tell
from the error value alone whether the file had been created — i.e.
whether a partial file may have been left behind. -/
theorem save_error_phases (m : NativeExportImportFilesMetaData)
    (hm : nativeMetaUtf8Valid m = true) :
    (∀ canWrite : Bool, ExportImportFilesMetaData.save false canWrite m =
      .ok (.error ⟨"Create metadata file failed"⟩)) ∧
    ExportImportFilesMetaData.save true false m =
      .ok (.error ⟨"Write metadate file failed"⟩) ∧
    (Error.mk "Create metadata file failed" ≠ Error.mk "Write metadate file failed") := by
  refine ⟨fun canWrite => ?_, ?_, by decide⟩
  · simp [ExportImportFilesMetaData.save]
  · simp [ExportImportFilesMetaData.save, hm]

/-- C6 witness: both failure phases at a concrete bundle. -/
theorem save_error_phases_witness :
    (ExportImportFilesMetaData.save false true sampleNativeMetaData =
      .ok (.error ⟨"Create metadata file failed"⟩)) ∧
    ExportImportFilesMetaData.save true false sampleNativeMetaData =
      .ok (.error ⟨"Write metadate file failed"⟩) :=
  ⟨(save_error_phases sampleNativeMetaData (by decide)).1 true,
   (save_error_phases sampleNativeMetaData (by decide)).2.1⟩

/-- C10: `save` and `load` are total only on bundles all of whose
string fields are valid UTF-8 without interior NUL bytes: on such
bundles they run to completion, but `save` panics (`CStr::to_str`'s
`unwrap`) on a bundle with a non-UTF-8 key field, and `load` panics
(`CString::new`'s `unwrap`) on stored metadata with an interior NUL in
a string field. -/
theorem save_load_total_only_on_utf8 (m : NativeExportImportFilesMetaData)
    (j : Json) (md : RocksdbExportImportFilesMetaData)
    (hm : nativeMetaUtf8Valid m = true)
    (hj : decodeMetaData j = .ok md)
    (hn : metaHasNul md = false) :
    ExportImportFilesMetaData.save true true m = .ok (.ok ()) ∧
    ExportImportFilesMetaData.load true true j = .ok (.ok md) ∧
    ExportImportFilesMetaData.save true true badKeyNative = .panic ∧
    ExportImportFilesMetaData.load true true nulKeyJson = .panic := by
  refine ⟨?_, ?_, rfl, rfl⟩
  · simp [ExportImportFilesMetaData.save, hm]
  · simp [ExportImportFilesMetaData.load, hj, hn]

/-- C10 witness: totality at a concrete valid bundle. -/
theorem save_load_total_only_on_utf8_witness :
    ExportImportFilesMetaData.save true true sampleNativeMetaData = .ok (.ok ()) ∧
    ExportImportFilesMetaData.load true true (encodeMetaData sampleBundle) =
      .ok (.ok sampleBundle) :=
  ⟨(save_load_total_only_on_utf8 sampleNativeMetaData (encodeMetaData sampleBundle)
      sampleBundle (by decide) rfl (by decide)).1,
   (save_load_total_only_on_utf8 sampleNativeMetaData (encodeMetaData sampleBundle)
      sampleBundle (by decide) rfl (by decide)).2.1⟩

/-- C3: two sequential `create_checkpoint` calls from the same handle to
two distinct fresh directories, with writes applied in between, both
succeed and leave two independent snapshots, each equal to the store
state at the instant of its own invocation (the first is unaffected by
the later writes; the second reflects them), not the state at handle
creation. -/
theorem multi_checkpoint_snapshots (st0 : StoreState) (fs : CheckpointFS)
    (p1 p2 : String) (ws : List (String × String))
    (h1 : hasNul p1 = false) (h2 : hasNul p2 = false)
    (hf1 : fs.find p1 = none) (hf2 : fs.find p2 = none) (hne : p2 ≠ p1) :
    (Checkpoint.create_checkpoint st0 fs p1).result = .ok () ∧
    (Checkpoint.create_checkpoint (applyWrites st0 ws)
      (Checkpoint.create_checkpoint st0 fs p1).fs p2).result = .ok () ∧
    (Checkpoint.create_checkpoint (applyWrites st0 ws)
      (Checkpoint.create_checkpoint st0 fs p1).fs p2).fs.find p1 = some st0 ∧
    (Checkpoint.create_checkpoint (applyWrites st0 ws)
      (Checkpoint.create_checkpoint st0 fs p1).fs p2).fs.find p2 =
      some (applyWrites st0 ws) := by
  have hne2 : ¬(p1 = p2) := fun hx => hne hx.symm
  simp only [CheckpointFS.find] at hf1 hf2
  simp [Checkpoint.create_checkpoint, rocksdbCheckpointCreate, CheckpointFS.find,
    assocFind, h1, h2, hf1, hf2, hne, hne2]

/-- C3 witness: the test scenario — four keys, checkpoint `cp1`, writes,
checkpoint `cp2`. -/
theorem multi_checkpoint_snapshots_witness :
    (Checkpoint.create_checkpoint sampleStoreState emptyCheckpointFS "cp1").result
      = .ok () ∧
    (Checkpoint.create_checkpoint (applyWrites sampleStoreState sampleWrites)
      (Checkpoint.create_checkpoint sampleStoreState emptyCheckpointFS "cp1").fs
      "cp2").fs.find "cp1" = some sampleStoreState :=
  ⟨(multi_checkpoint_snapshots sampleStoreState emptyCheckpointFS "cp1" "cp2"
      sampleWrites (by decide) (by decide) (by decide) (by decide) (by decide)).1,
   (multi_checkpoint_snapshots sampleStoreState emptyCheckpointFS "cp1" "cp2"
      sampleWrites (by decide) (by decide) (by decide) (by decide) (by decide)).2.2.1⟩

/-- C7: `create_checkpoint` fails with the spec's `PathError` when the
target directory already exists or when the path cannot be represented
in the platform's native path encoding (interior NUL byte), and in both
failure cases the durable storage is unchanged — no checkpoint is
produced. -/
theorem create_checkpoint_path_errors (st : StoreState) (fs : CheckpointFS)
    (p : String) :
    (hasNul p = true →
      Checkpoint.create_checkpoint st fs p = ⟨fs, 0, .error .pathError⟩) ∧
    ((fs.find p).isSome = true →
      Checkpoint.create_checkpoint st fs p = ⟨fs, 0, .error .pathError⟩) := by
  constructor
  · intro h
    simp [Checkpoint.create_checkpoint, h]
  · intro h
    by_cases hn : hasNul p
    · simp [Checkpoint.create_checkpoint, hn]
    · simp [Checkpoint.create_checkpoint, hn, rocksdbCheckpointCreate, h]

/-- C7 witness: an unrepresentable path and a pre-existing directory. -/
theorem create_checkpoint_path_errors_witness :
    Checkpoint.create_checkpoint sampleStoreState emptyCheckpointFS "a\x00b" =
      ⟨emptyCheckpointFS, 0, .error .pathError⟩ ∧
    Checkpoint.create_checkpoint sampleStoreState occupiedCheckpointFS "cp1" =
      ⟨occupiedCheckpointFS, 0, .error .pathError⟩ :=
  ⟨(create_checkpoint_path_errors sampleStoreState emptyCheckpointFS "a\x00b").1
      (by decide),
   (create_checkpoint_path_errors sampleStoreState occupiedCheckpointFS "cp1").2
      (by decide)⟩

/-- C8: the flush-size threshold `LOG_SIZE_FOR_FLUSH` defaults to zero;
every `create_checkpoint` invocation passes it to the underlying
engine call, and with the zero threshold nothing extra of the write
buffer is flushed (recovery relies on the existing WAL). -/
theorem checkpoint_flush_threshold (st : StoreState) (fs : CheckpointFS)
    (p : String) (h : hasNul p = false) :
    LOG_SIZE_FOR_FLUSH = 0 ∧
    Checkpoint.create_checkpoint st fs p =
      rocksdbCheckpointCreate st fs p LOG_SIZE_FOR_FLUSH ∧
    flushedSize LOG_SIZE_FOR_FLUSH st.writes.length = 0 ∧
    (Checkpoint.create_checkpoint st fs p).flushed = 0 := by
  refine ⟨rfl, by simp [Checkpoint.create_checkpoint, h],
    by simp [flushedSize, LOG_SIZE_FOR_FLUSH], ?_⟩
  by_cases hf : (fs.find p).isSome
  · simp [Checkpoint.create_checkpoint, h, rocksdbCheckpointCreate, hf]
  · simp [Checkpoint.create_checkpoint, h, rocksdbCheckpointCreate, hf,
      flushedSize, LOG_SIZE_FOR_FLUSH]

/-- C8 witness: the threshold and flushed amount at a concrete call. -/
theorem checkpoint_flush_threshold_witness :
    LOG_SIZE_FOR_FLUSH = 0 ∧
    (Checkpoint.create_checkpoint sampleStoreState emptyCheckpointFS "cp1").flushed
      = 0 :=
  ⟨(checkpoint_flush_threshold sampleStoreState emptyCheckpointFS "cp1"
      (by decide)).1,
   (checkpoint_flush_threshold sampleStoreState emptyCheckpointFS "cp1"
      (by decide)).2.2.2⟩

/-- C4: exporting a column family and importing the bundle into a fresh
destination store succeeds, creates the requested column family with
exactly the source column family's key/value set at export time
(tombstones included), and leaves every other column family of the
destination untouched — absent if it did not previously exist. -/
theorem export_import_roundtrip (src dst : MultiCFStore)
    (content : ColumnFamilyContent) (newname dir : String)
    (present : List String)
    (hdir : hasNul dir = false)
    (hfresh : dst.getCF newname = none)
    (hcmp : src.comparator = dst.comparator)
    (hpres : present.contains dir = true) :
    Checkpoint.export_column_family src content dir =
      .ok ⟨src.comparator, content, [dir]⟩ ∧
    (DB.create_cf_with_import dst newname ⟨src.comparator, content, [dir]⟩
      present).2 = none ∧
    (DB.create_cf_with_import dst newname ⟨src.comparator, content, [dir]⟩
      present).1.getCF newname = some content ∧
    (∀ other, other ≠ newname →
      (DB.create_cf_with_import dst newname ⟨src.comparator, content, [dir]⟩
        present).1.getCF other = dst.getCF other) := by
  have hfresh2 : assocFind dst.cfs newname = none := by
    simpa [MultiCFStore.getCF] using hfresh
  have hmem : dir ∈ present := by simpa using hpres
  refine ⟨by simp [Checkpoint.export_column_family, hdir], ?_, ?_, ?_⟩
  · simp [DB.create_cf_with_import, MultiCFStore.getCF, hfresh2, hcmp, hmem]
  · simp [DB.create_cf_with_import, MultiCFStore.getCF, hfresh2, hcmp, hmem,
      assocFind]
  · intro other hother
    simp [DB.create_cf_with_import, MultiCFStore.getCF, hfresh2, hcmp, hmem,
      assocFind, hother]

/-- C4 witness: the test scenario — export `cf1`, import into a fresh
store, `cf1` carries the source content, `cf2` stays absent. -/
theorem export_import_roundtrip_witness :
    Checkpoint.export_column_family sampleSrcStore sampleCFContent "/tmp/export" =
      .ok ⟨"leveldb.BytewiseComparator", sampleCFContent, ["/tmp/export"]⟩ ∧
    (DB.create_cf_with_import sampleDstStore "cf1"
      ⟨"leveldb.BytewiseComparator", sampleCFContent, ["/tmp/export"]⟩
      ["/tmp/export"]).1.getCF "cf1" = some sampleCFContent ∧
    (DB.create_cf_with_import sampleDstStore "cf1"
      ⟨"leveldb.BytewiseComparator", sampleCFContent, ["/tmp/export"]⟩
      ["/tmp/export"]).1.getCF "cf2" = sampleDstStore.getCF "cf2" :=
  ⟨(export_import_roundtrip sampleSrcStore sampleDstStore sampleCFContent "cf1"
      "/tmp/export" ["/tmp/export"] (by decide) (by decide) (by decide)
      (by decide)).1,
   (export_import_roundtrip sampleSrcStore sampleDstStore sampleCFContent "cf1"
      "/tmp/export" ["/tmp/export"] (by decide) (by decide) (by decide)
      (by decide)).2.2.1,
   (export_import_roundtrip sampleSrcStore sampleDstStore sampleCFContent "cf1"
      "/tmp/export" ["/tmp/export"] (by decide) (by decide) (by decide)
      (by decide)).2.2.2 "cf2" (by decide)⟩

/-- C5: `create_cf_with_import` fails with `AlreadyExists` when the
requested column-family name is taken, with `ComparatorMismatch` when
the bundle's comparator differs from the destination's, and with
`MissingFile` when a referenced file is absent — and in every failure
case the destination store is returned unchanged (its column-family set
in particular), with no partial registration. -/
theorem import_failure_cases (store : MultiCFStore) (name : String)
    (bundle : ExportBundle) (present : List String) :
    ((store.getCF name).isSome = true →
      DB.create_cf_with_import store name bundle present =
        (store, some .AlreadyExists)) ∧
    (store.getCF name = none → bundle.comparator_name ≠ store.comparator →
      DB.create_cf_with_import store name bundle present =
        (store, some .ComparatorMismatch)) ∧
    (store.getCF name = none → bundle.comparator_name = store.comparator →
      bundle.files.any (fun f => !(present.contains f)) = true →
      DB.create_cf_with_import store name bundle present =
        (store, some .MissingFile)) := by
  refine ⟨fun h1 => ?_, fun h1 h2 => ?_, fun h1 h2 h3 => ?_⟩
  · simp [DB.create_cf_with_import, h1]
  · simp [DB.create_cf_with_import, h1, h2]
  · have h3m : ∃ x ∈ bundle.files, x ∉ present := by simpa using h3
    simp [DB.create_cf_with_import, h1, h2, h3m]

/-- C5 witness: the three failure cases at concrete stores — an
occupied name, a comparator mismatch, a deleted file — each leaving the
destination unchanged. -/
theorem import_failure_cases_witness :
    DB.create_cf_with_import sampleSrcStore "cf1" sampleImportBundle
      ["/tmp/export"] = (sampleSrcStore, some .AlreadyExists) ∧
    DB.create_cf_with_import mismatchDstStore "cf1" sampleImportBundle
      ["/tmp/export"] = (mismatchDstStore, some .ComparatorMismatch) ∧
    DB.create_cf_with_import sampleDstStore "cf1" missingFileBundle
      ["/tmp/export"] = (sampleDstStore, some .MissingFile) :=
  ⟨(import_failure_cases sampleSrcStore "cf1" sampleImportBundle
      ["/tmp/export"]).1 (by decide),
   (import_failure_cases mismatchDstStore "cf1" sampleImportBundle
      ["/tmp/export"]).2.1 (by decide) (by decide),
   (import_failure_cases sampleDstStore "cf1" missingFileBundle
      ["/tmp/export"]).2.2 (by decide) (by decide) (by decide)⟩
